import Mathlib

/-! A leveled logger (`logger.go`).

Shallow embedding of the Go package `logger` and proofs of its specified behaviour.

Modelling conventions.

* Go strings are Lean `String`s (well-formed UTF-8 text); a `Loglevel` is a string.
* The map `LogLevelOrder` is an association list with pairwise distinct keys; indexing a
  missing key yields the zero value `0`, the comma-ok form yields `false`.
* The logger's writer (standard output) is the list of the byte strings handed to its
  `Write` method, oldest first.  It is carried in the `Logger` record next to the threshold.
* Methods on `*Logger` that mutate the receiver return the new logger state.
* `time.Now()` is an explicit input: every operation that reads the clock receives the
  reading it observes.
* `fmt.Sprintf` is modelled after `doPrintf` of the Go standard library for operands of
  string kind (`string` and `Loglevel`).  Directives consisting of `%` directly followed by
  a verb are interpreted; the verbs `s` and `v` print a string operand verbatim.  Everything
  else (flags, width, precision, argument indexes, other verbs applied to an operand) is
  left to an uninterpreted library record `Fmt`, so every theorem holds for whatever the
  library prints there.
-/

namespace Logger

/-! ## Log levels -/

/-- Go: `type Loglevel string`. -/
abbrev Loglevel := String

/-- Go: `INFO Loglevel = "INFO"`. -/
def INFO : Loglevel := "INFO"
/-- Go: `WARN Loglevel = "WARN"`. -/
def WARN : Loglevel := "WARN"
/-- Go: `ERROR Loglevel = "ERROR"`. -/
def ERROR : Loglevel := "ERROR"
/-- Go: `DEBUG Loglevel = "DEBUG"`. -/
def DEBUG : Loglevel := "DEBUG"

/-- Go: `var LogLevelOrder = map[Loglevel]int{INFO: 0, WARN: 1, ERROR: 2, DEBUG: 3}`. -/
def LogLevelOrder : List (Loglevel × Int) :=
  [(INFO, 0), (WARN, 1), (ERROR, 2), (DEBUG, 3)]

/-- Go map indexing `m[k]`: the stored value, or the zero value when the key is absent. -/
def mapIndex (m : List (Loglevel × Int)) (k : Loglevel) : Int :=
  (m.lookup k).getD 0

/-- Go comma-ok map lookup `_, ok := m[k]`: whether the key is present. -/
def mapHas (m : List (Loglevel × Int)) (k : Loglevel) : Bool :=
  (m.lookup k).isSome

/-! ## Library: `time` -/

/-- A wall-clock reading of `time.Now()` in local time. -/
structure Time where
  year : Nat
  month : Nat
  day : Nat
  hour : Nat
  minute : Nat
  second : Nat
  deriving DecidableEq

/-- Go `time.appendInt` for a non-negative value: the decimal form, padded with leading
zeros up to `width`. -/
def appendInt (x width : Nat) : List Char :=
  let ds := Nat.toDigits 10 x
  List.replicate (width - ds.length) '0' ++ ds

/-- Go `Time.Format("2006/01/02-15:04:05")`: four-digit year, two-digit month, day, hour,
minute and second, with the literal separators of the layout. -/
def formatTime (t : Time) : String :=
  String.mk (appendInt t.year 4 ++ '/' :: appendInt t.month 2 ++ '/' :: appendInt t.day 2
    ++ '-' :: appendInt t.hour 2 ++ ':' :: appendInt t.minute 2 ++ ':' :: appendInt t.second 2)

/-- Go: `func LoggerTimeStamp() string`, with the clock reading made explicit. -/
def LoggerTimeStamp (now : Time) : String :=
  formatTime now

/-! ## Library: `fmt` -/

/-- An operand passed as `any` to `fmt.Sprintf`: a Go `string` or a `Loglevel`. -/
inductive Any where
  | str (s : String)
  | level (l : Loglevel)
  deriving DecidableEq

/-- The text of a string-kind operand. -/
def Any.text : Any → String
  | .str s => s
  | .level l => l

/-- Go `reflect.TypeOf(arg).String()`. -/
def Any.typeName : Any → String
  | .str _ => "string"
  | .level _ => "logger.Loglevel"

/-- The part of `fmt` that is not interpreted. -/
structure Fmt where
  /-- Output of `printArg` for an operand under a verb other than `s` and `v`. -/
  printArg : Any → Char → List Char
  /-- Output of the remainder of `doPrintf`, started at a directive that carries flags,
  a width, a precision or an argument index: the format from just after its `%`, all
  operands, and the number of operands consumed so far. -/
  complex : List Char → List Any → Nat → List Char

/-- Go `printArg` without flags. -/
def printArg (lib : Fmt) (arg : Any) (verb : Char) : List Char :=
  if verb = 's' ∨ verb = 'v' then arg.text.data else lib.printArg arg verb

/-- The operands left over at the end of `doPrintf`, as `type=value` separated by `, `. -/
def extraArgs : List Any → List Char
  | [] => []
  | [x] => x.typeName.data ++ '=' :: x.text.data
  | x :: y :: rest => x.typeName.data ++ '=' :: x.text.data ++ ", ".data ++ extraArgs (y :: rest)

/-- End of `doPrintf`: the `%!(EXTRA ...)` report when operands are left over. -/
def finish (a : List Any) (argNum : Nat) : List Char :=
  if argNum < a.length then "%!(EXTRA ".data ++ extraArgs (a.drop argNum) ++ [')'] else []

/-- Whether the character after `%` starts a flag, a width, a precision or an argument
index. -/
def startsComplex (c : Char) : Bool :=
  c = '#' || c = '0' || c = '+' || c = '-' || c = ' ' || c = '*' || c = '.' || c = '['
    || ('1' ≤ c && c ≤ '9')

/-- Go `(*pp).doPrintf` over the characters of the format. -/
def doPrintf (lib : Fmt) (a : List Any) : List Char → Nat → List Char
  | [], argNum => finish a argNum
  | c :: [], argNum =>
    if c = '%' then "%!(NOVERB)".data ++ finish a argNum else c :: finish a argNum
  | c :: verb :: rest, argNum =>
    if c = '%' then
      if verb = '%' then '%' :: doPrintf lib a rest argNum
      else if startsComplex verb then lib.complex (verb :: rest) a argNum
      else
        match a[argNum]? with
        | none => "%!".data ++ verb :: "(MISSING)".data ++ doPrintf lib a rest argNum
        | some arg => printArg lib arg verb ++ doPrintf lib a rest (argNum + 1)
    else c :: doPrintf lib a (verb :: rest) argNum

/-- Go `fmt.Sprintf(format, a...)`. -/
def Sprintf (lib : Fmt) (format : String) (a : List Any) : String :=
  String.mk (doPrintf lib a format.data 0)

/-! ## The logger -/

end Logger

/-- Go: `type Logger struct { *log.Logger; loglevel Loglevel }`.  The embedded writer is
represented by `out`, the byte strings written to it so far. -/
structure Logger where
  out : List String
  loglevel : Logger.Loglevel
  deriving DecidableEq

namespace Logger

/-- Go: `func (l *Logger) ValidateLogLevel(loglevel Loglevel) bool`. -/
def ValidateLogLevel (_l : Logger) (loglevel : Loglevel) : Bool :=
  mapHas LogLevelOrder loglevel

/-- Go: `func (l *Logger) ShouldBeLogged(loglevel Loglevel) bool`. -/
def ShouldBeLogged (l : Logger) (loglevel : Loglevel) : Bool :=
  l.ValidateLogLevel loglevel
    && decide (mapIndex LogLevelOrder l.loglevel ≥ mapIndex LogLevelOrder loglevel)

/-- Go: `func (l *Logger) Write(loglevel Loglevel, msg string, v ...any)`. -/
def Write (lib : Fmt) (l : Logger) (now : Time) (loglevel : Loglevel) (msg : String)
    (v : List Any) : Logger :=
  if l.ShouldBeLogged loglevel then
    { l with out := l.out ++ [Sprintf lib "[LOG-%s][%v] %s\n"
        [.level loglevel, .str (LoggerTimeStamp now), .str (Sprintf lib msg v)]] }
  else l

/-- Go: `func (l *Logger) Info(msg string, v ...any)`. -/
def Info (lib : Fmt) (l : Logger) (now : Time) (msg : String) (v : List Any) : Logger :=
  l.Write lib now INFO msg v

/-- Go: `func (l *Logger) Warn(msg string, v ...any)`. -/
def Warn (lib : Fmt) (l : Logger) (now : Time) (msg : String) (v : List Any) : Logger :=
  l.Write lib now WARN msg v

/-- Go: `func (l *Logger) Error(msg string, v ...any)`. -/
def Error (lib : Fmt) (l : Logger) (now : Time) (msg : String) (v : List Any) : Logger :=
  l.Write lib now ERROR msg v

/-- Go: `func (l *Logger) Debug(msg string, v ...any)`. -/
def Debug (lib : Fmt) (l : Logger) (now : Time) (msg : String) (v : List Any) : Logger :=
  l.Write lib now DEBUG msg v

/-- Go: `func (l *Logger) SetLogLevel(loglevel Loglevel)`. -/
def SetLogLevel (lib : Fmt) (l : Logger) (now : Time) (loglevel : Loglevel) : Logger :=
  if l.ValidateLogLevel loglevel then
    Info lib { l with loglevel := loglevel } now
      (Sprintf lib "Log level set to %s" [.level loglevel]) []
  else
    Error lib l now
      (Sprintf lib "Invalid log level %s! Loglevel still is set to %s"
        [.level loglevel, .level l.loglevel]) []

/-- Go: `func (l *Logger) GetLogLevel() Loglevel`. -/
def GetLogLevel (l : Logger) : Loglevel :=
  l.loglevel

/-- Go: `func NewLogger() *Logger`.  `stdout` is what standard output has received before
the call; `t1` and `t2` are the clock readings of the two announcements. -/
def NewLogger (lib : Fmt) (stdout : List String) (t1 t2 : Time) : Logger :=
  let newLogger : Logger := { out := stdout, loglevel := INFO }
  let newLogger := Info lib newLogger t1
    (Sprintf lib "Logger initialized with log level %s" [.level newLogger.loglevel]) []
  Debug lib newLogger t2 "!!! Debug log level enabled !!!" []

/-! ## Sequences of operations -/

/-- A call of one of the public operations of a logger, with the clock reading it observes
when it may write. -/
inductive Op where
  | setLogLevel (now : Time) (loglevel : Loglevel)
  | write (now : Time) (loglevel : Loglevel) (msg : String) (v : List Any)
  | info (now : Time) (msg : String) (v : List Any)
  | warn (now : Time) (msg : String) (v : List Any)
  | error (now : Time) (msg : String) (v : List Any)
  | debug (now : Time) (msg : String) (v : List Any)
  | shouldBeLogged (loglevel : Loglevel)
  | validateLogLevel (loglevel : Loglevel)
  | getLogLevel

/-- The logger state after one call; the three query operations return a value and leave
the logger as it is. -/
def step (lib : Fmt) (l : Logger) : Op → Logger
  | .setLogLevel now loglevel => l.SetLogLevel lib now loglevel
  | .write now loglevel msg v => l.Write lib now loglevel msg v
  | .info now msg v => l.Info lib now msg v
  | .warn now msg v => l.Warn lib now msg v
  | .error now msg v => l.Error lib now msg v
  | .debug now msg v => l.Debug lib now msg v
  | .shouldBeLogged _ => l
  | .validateLogLevel _ => l
  | .getLogLevel => l

/-- The logger state after a finite sequence of calls, first call first. -/
def run (lib : Fmt) (l : Logger) (ops : List Op) : Logger :=
  ops.foldl (step lib) l

/-- The logger state after a sequence of `SetLogLevel` calls, each with its clock reading. -/
def setAll (lib : Fmt) (l : Logger) (calls : List (Time × Loglevel)) : Logger :=
  calls.foldl (fun l c => l.SetLogLevel lib c.1 c.2) l

/-! ## Vocabulary of the specification -/

/-- The Severity set of the specification: the four recognised level strings. -/
def isSeverity (L : Loglevel) : Prop :=
  L = "INFO" ∨ L = "WARN" ∨ L = "ERROR" ∨ L = "DEBUG"

instance (L : Loglevel) : Decidable (isSeverity L) := by
  unfold isSeverity; infer_instance

/-- The rank table of the specification: INFO=0, WARN=1, ERROR=2, DEBUG=3. -/
def rank (L : Loglevel) : Int :=
  if L = "INFO" then 0 else if L = "WARN" then 1 else if L = "ERROR" then 2
  else if L = "DEBUG" then 3 else 0

/-- One terminated line: the text ends with a newline and has no newline before that. -/
def oneTerminatedLine (w : String) : Prop :=
  w.data.getLast? = some '\n' ∧ '\n' ∉ w.data.dropLast

instance (w : String) : Decidable (oneTerminatedLine w) := by
  unfold oneTerminatedLine; infer_instance

/-- A library whose uninterpreted parts print nothing, for running the model on inputs
that stay within the interpreted part of `fmt`. -/
def Fmt.silent : Fmt :=
  ⟨fun _ _ => [], fun _ _ _ => []⟩

end Logger

namespace Logger

/-! ## The level table -/

theorem mapHas_order (L : Loglevel) : mapHas LogLevelOrder L = true ↔ isSeverity L := by
  unfold mapHas LogLevelOrder isSeverity INFO WARN ERROR DEBUG
  by_cases h1 : L = "INFO"
  · subst h1; decide
  by_cases h2 : L = "WARN"
  · subst h2; decide
  by_cases h3 : L = "ERROR"
  · subst h3; decide
  by_cases h4 : L = "DEBUG"
  · subst h4; decide
  have e1 : (L == "INFO") = false := by simpa using h1
  have e2 : (L == "WARN") = false := by simpa using h2
  have e3 : (L == "ERROR") = false := by simpa using h3
  have e4 : (L == "DEBUG") = false := by simpa using h4
  simp [List.lookup, e1, e2, e3, e4, h1, h2, h3, h4]

theorem mapIndex_order (L : Loglevel) : mapIndex LogLevelOrder L = rank L := by
  unfold mapIndex LogLevelOrder rank INFO WARN ERROR DEBUG
  by_cases h1 : L = "INFO"
  · subst h1; decide
  by_cases h2 : L = "WARN"
  · subst h2; decide
  by_cases h3 : L = "ERROR"
  · subst h3; decide
  by_cases h4 : L = "DEBUG"
  · subst h4; decide
  have e1 : (L == "INFO") = false := by simpa using h1
  have e2 : (L == "WARN") = false := by simpa using h2
  have e3 : (L == "ERROR") = false := by simpa using h3
  have e4 : (L == "DEBUG") = false := by simpa using h4
  simp [List.lookup, e1, e2, e3, e4, h1, h2, h3, h4]

theorem validate_iff (l : Logger) (L : Loglevel) :
    l.ValidateLogLevel L = true ↔ isSeverity L :=
  mapHas_order L

theorem validate_false_iff (l : Logger) (L : Loglevel) :
    l.ValidateLogLevel L = false ↔ ¬ isSeverity L := by
  rw [← validate_iff l L]; simp

theorem shouldBeLogged_iff (l : Logger) (L : Loglevel) :
    l.ShouldBeLogged L = true ↔ (isSeverity L ∧ rank l.loglevel ≥ rank L) := by
  simp [ShouldBeLogged, validate_iff, mapIndex_order]

theorem isSeverity_no_newline (L : Loglevel) (h : isSeverity L) : '\n' ∉ L.data := by
  rcases h with rfl | rfl | rfl | rfl <;> decide

/-! ## Formatting -/

theorem doPrintf_nil (lib : Fmt) (a : List Any) (n : Nat) :
    doPrintf lib a [] n = finish a n := by
  simp [doPrintf]

theorem doPrintf_lit (lib : Fmt) (a : List Any) (c : Char) (cs : List Char) (n : Nat)
    (h : c ≠ '%') : doPrintf lib a (c :: cs) n = c :: doPrintf lib a cs n := by
  cases cs with
  | nil => simp [doPrintf, h]
  | cons d ds => simp [doPrintf, h]

theorem doPrintf_text (lib : Fmt) (a : List Any) (arg : Any) (verb : Char) (rest : List Char)
    (n : Nat) (hv : verb = 's' ∨ verb = 'v') (h : a[n]? = some arg) :
    doPrintf lib a ('%' :: verb :: rest) n = arg.text.data ++ doPrintf lib a rest (n + 1) := by
  rcases hv with rfl | rfl <;> simp [doPrintf, startsComplex, h, printArg]

theorem doPrintf_plain (lib : Fmt) (cs : List Char) (n : Nat) (h : '%' ∉ cs) :
    doPrintf lib [] cs n = cs := by
  induction cs with
  | nil => simp [doPrintf, finish]
  | cons c cs ih =>
    have hc : c ≠ '%' := fun e => h (by simp [e])
    have hcs : '%' ∉ cs := fun e => h (by simp [e])
    rw [doPrintf_lit lib [] c cs n hc, ih hcs]

theorem Sprintf_plain (lib : Fmt) (s : String) (h : '%' ∉ s.data) : Sprintf lib s [] = s := by
  simp [Sprintf, doPrintf_plain lib s.data 0 h]

theorem Sprintf_line (lib : Fmt) (L ts m : String) :
    Sprintf lib "[LOG-%s][%v] %s\n" [.level L, .str ts, .str m]
      = "[LOG-" ++ L ++ "][" ++ ts ++ "] " ++ m ++ "\n" := by
  apply String.ext
  have hf : ("[LOG-%s][%v] %s\n" : String).data
      = ['[', 'L', 'O', 'G', '-', '%', 's', ']', '[', '%', 'v', ']', ' ', '%', 's', '\n'] := by
    decide
  simp [Sprintf, hf, doPrintf_lit, doPrintf_text, doPrintf_nil, finish, Any.text]

theorem Sprintf_initialized (lib : Fmt) (L : String) :
    Sprintf lib "Logger initialized with log level %s" [.level L]
      = "Logger initialized with log level " ++ L := by
  apply String.ext
  have hf : ("Logger initialized with log level %s" : String).data
      = "Logger initialized with log level ".data ++ ['%', 's'] := by
    decide
  have hp : ∀ (pre : List Char), '%' ∉ pre → ∀ rest n,
      doPrintf lib [Any.level L] (pre ++ rest) n = pre ++ doPrintf lib [Any.level L] rest n := by
    intro pre
    induction pre with
    | nil => intros; rfl
    | cons c cs ih =>
      intro h rest n
      have hc : c ≠ '%' := fun e => h (by simp [e])
      have hcs : '%' ∉ cs := fun e => h (by simp [e])
      simp [doPrintf_lit _ _ _ _ _ hc, ih hcs]
  rw [Sprintf, hf, hp _ (by decide)]
  simp [doPrintf_text, doPrintf_nil, finish, Any.text]

/-! ## Timestamps -/

theorem digitChar_ne_newline : ∀ k, k < 10 → Nat.digitChar k ≠ '\n' := by
  decide

theorem toDigitsCore_ne_newline (f : Nat) : ∀ (n : Nat) (ds : List Char),
    '\n' ∉ ds → '\n' ∉ Nat.toDigitsCore 10 f n ds := by
  induction f with
  | zero => intro n ds h; simpa [Nat.toDigitsCore] using h
  | succ f ih =>
    intro n ds h
    have hd : '\n' ∉ Nat.digitChar (n % 10) :: ds := by
      simp only [List.mem_cons, not_or]
      exact ⟨fun e => digitChar_ne_newline (n % 10) (Nat.mod_lt _ (by decide)) e.symm, h⟩
    simp only [Nat.toDigitsCore]
    split
    · exact hd
    · exact ih _ _ hd

theorem appendInt_ne_newline (x width : Nat) : '\n' ∉ appendInt x width := by
  have h : '\n' ∉ Nat.toDigits 10 x := toDigitsCore_ne_newline _ _ _ (by simp)
  simp [appendInt, h, List.mem_replicate]

theorem LoggerTimeStamp_ne_newline (now : Time) : '\n' ∉ (LoggerTimeStamp now).data := by
  simp [LoggerTimeStamp, formatTime, appendInt_ne_newline]

/-! ## Writing -/

theorem Write_enabled (lib : Fmt) (l : Logger) (now : Time) (L : Loglevel) (msg : String)
    (v : List Any) (h : l.ShouldBeLogged L = true) :
    l.Write lib now L msg v = { l with out := l.out ++
      ["[LOG-" ++ L ++ "][" ++ LoggerTimeStamp now ++ "] " ++ Sprintf lib msg v ++ "\n"] } := by
  simp [Write, h, Sprintf_line]

theorem Write_disabled (lib : Fmt) (l : Logger) (now : Time) (L : Loglevel) (msg : String)
    (v : List Any) (h : l.ShouldBeLogged L = false) : l.Write lib now L msg v = l := by
  simp [Write, h]

theorem Write_loglevel (lib : Fmt) (l : Logger) (now : Time) (L : Loglevel) (msg : String)
    (v : List Any) : (l.Write lib now L msg v).loglevel = l.loglevel := by
  unfold Write; split <;> rfl

theorem SetLogLevel_loglevel (lib : Fmt) (l : Logger) (now : Time) (X : Loglevel) :
    (l.SetLogLevel lib now X).loglevel = if isSeverity X then X else l.loglevel := by
  by_cases h : isSeverity X
  · have hv := (validate_iff l X).mpr h
    simp [SetLogLevel, hv, h, Info, Write_loglevel]
  · have hv := (validate_false_iff l X).mpr h
    simp [SetLogLevel, hv, h, Error, Write_loglevel]

end Logger

namespace Logger

/-! ## Sequences -/

theorem step_loglevel_valid (lib : Fmt) (l : Logger) (op : Op) (h : isSeverity l.loglevel) :
    isSeverity (step lib l op).loglevel := by
  cases op with
  | setLogLevel now X =>
    simp only [step, SetLogLevel_loglevel]
    split
    · assumption
    · exact h
  | write now L msg v => simpa [step, Write_loglevel] using h
  | info now msg v => simpa [step, Info, Write_loglevel] using h
  | warn now msg v => simpa [step, Warn, Write_loglevel] using h
  | error now msg v => simpa [step, Error, Write_loglevel] using h
  | debug now msg v => simpa [step, Debug, Write_loglevel] using h
  | shouldBeLogged L => exact h
  | validateLogLevel L => exact h
  | getLogLevel => exact h

theorem run_loglevel_valid (lib : Fmt) (ops : List Op) : ∀ (l : Logger),
    isSeverity l.loglevel → isSeverity (run lib l ops).loglevel := by
  induction ops with
  | nil => intro l h; exact h
  | cons op ops ih =>
    intro l h
    exact ih (step lib l op) (step_loglevel_valid lib l op h)

theorem NewLogger_eq (lib : Fmt) (stdout : List String) (t1 t2 : Time) :
    NewLogger lib stdout t1 t2 = Logger.mk (stdout ++
      ["[LOG-INFO][" ++ LoggerTimeStamp t1 ++ "] Logger initialized with log level INFO\n"])
      INFO := by
  have h1 : ShouldBeLogged { out := stdout, loglevel := INFO } INFO = true := rfl
  have hm : Sprintf lib ("Logger initialized with log level " ++ INFO) []
      = "Logger initialized with log level " ++ INFO :=
    Sprintf_plain lib _ (by decide)
  have h2 : ∀ o, ShouldBeLogged { out := o, loglevel := INFO } DEBUG = false :=
    fun _ => rfl
  have hs : "[LOG-" ++ INFO ++ "][" ++ LoggerTimeStamp t1 ++ "] "
      ++ ("Logger initialized with log level " ++ INFO) ++ "\n"
      = "[LOG-INFO][" ++ LoggerTimeStamp t1 ++ "] Logger initialized with log level INFO\n" := by
    apply String.ext
    simp [String.data_append, INFO]
  simp only [NewLogger, Info, Debug, Sprintf_initialized, Write_enabled lib _ t1 INFO _ [] h1,
    hm]
  rw [Write_disabled lib _ t2 DEBUG _ [] (h2 _), hs]

/-! ## Claims -/

/-- C1: for a logger whose threshold is one of the four severities and any level string
`L`, `ShouldBeLogged L` is true exactly when `L` is one of INFO, WARN, ERROR, DEBUG and the
rank of the threshold is at least the rank of `L`, for the table INFO=0, WARN=1, ERROR=2,
DEBUG=3. -/
theorem ShouldBeLogged_iff_rank (l : Logger) (L : Loglevel) (hT : isSeverity l.loglevel) :
    l.ShouldBeLogged L = true ↔ (isSeverity L ∧ rank l.loglevel ≥ rank L) := by
  have _ := hT
  exact shouldBeLogged_iff l L

theorem ShouldBeLogged_iff_rank_witness :
    isSeverity (Logger.mk [] "WARN").loglevel ∧
      ((Logger.mk [] "WARN").ShouldBeLogged "ERROR" = true
        ↔ (isSeverity "ERROR" ∧ rank (Logger.mk [] "WARN").loglevel ≥ rank "ERROR")) :=
  ⟨by decide, ShouldBeLogged_iff_rank (Logger.mk [] "WARN") "ERROR" (by decide)⟩

/-- C2: `ValidateLogLevel L` is true exactly when `L` is one of the four strings "INFO",
"WARN", "ERROR", "DEBUG"; "TRACE", "info" and the empty string are rejected; and the
result is the same for every logger state. -/
theorem ValidateLogLevel_iff_four (l k : Logger) (L : Loglevel) :
    (l.ValidateLogLevel L = true ↔ (L = "INFO" ∨ L = "WARN" ∨ L = "ERROR" ∨ L = "DEBUG"))
      ∧ l.ValidateLogLevel "TRACE" = false ∧ l.ValidateLogLevel "info" = false
      ∧ l.ValidateLogLevel "" = false
      ∧ l.ValidateLogLevel L = k.ValidateLogLevel L :=
  ⟨validate_iff l L, rfl, rfl, rfl, rfl⟩

/-- C3: when `ShouldBeLogged level` is false, `Write level template args` writes nothing:
the sink after the call is the sink before the call. -/
theorem Write_disabled_out (lib : Fmt) (l : Logger) (now : Time) (level : Loglevel)
    (template : String) (args : List Any) (h : l.ShouldBeLogged level = false) :
    (l.Write lib now level template args).out = l.out := by
  rw [Write_disabled lib l now level template args h]

theorem Write_disabled_out_witness :
    (Logger.mk ["earlier\n"] "INFO").ShouldBeLogged "DEBUG" = false ∧
      ((Logger.mk ["earlier\n"] "INFO").Write Fmt.silent ⟨2024, 1, 2, 3, 4, 5⟩ "DEBUG"
        "x=%s" [.str "1"]).out = (Logger.mk ["earlier\n"] "INFO").out :=
  ⟨by decide, Write_disabled_out Fmt.silent (Logger.mk ["earlier\n"] "INFO")
    ⟨2024, 1, 2, 3, 4, 5⟩ "DEBUG" "x=%s" [.str "1"] (by decide)⟩

/-- C4: when `ShouldBeLogged L` is true, `Write L template args` appends exactly one write
to the sink, and its bytes are `"[LOG-" ++ L ++ "][" ++ ts ++ "] " ++ Sprintf template args
++ "\n"`, where `ts` is the current timestamp string. -/
theorem Write_enabled_out (lib : Fmt) (l : Logger) (now : Time) (L : Loglevel)
    (template : String) (args : List Any) (h : l.ShouldBeLogged L = true) :
    (l.Write lib now L template args).out = l.out ++
      ["[LOG-" ++ L ++ "][" ++ LoggerTimeStamp now ++ "] " ++ Sprintf lib template args
        ++ "\n"] := by
  rw [Write_enabled lib l now L template args h]

theorem Write_enabled_out_witness :
    (Logger.mk [] "DEBUG").ShouldBeLogged "INFO" = true ∧
      ((Logger.mk [] "DEBUG").Write Fmt.silent ⟨2024, 1, 2, 3, 4, 5⟩ "INFO"
        "hello %s" [.str "world"]).out = (Logger.mk [] "DEBUG").out ++
      ["[LOG-" ++ "INFO" ++ "][" ++ LoggerTimeStamp ⟨2024, 1, 2, 3, 4, 5⟩ ++ "] "
        ++ Sprintf Fmt.silent "hello %s" [.str "world"] ++ "\n"] :=
  ⟨by decide, Write_enabled_out Fmt.silent (Logger.mk [] "DEBUG") ⟨2024, 1, 2, 3, 4, 5⟩
    "INFO" "hello %s" [.str "world"] (by decide)⟩

/-- C5, as stated, fails: at threshold INFO, `Write INFO "a\nb"` writes
`"[LOG-INFO][2024/01/02-03:04:05] a\nb\n"`, which has a newline before its last
character. -/
theorem Write_one_line_counterexample :
    (Logger.mk [] "INFO").ShouldBeLogged "INFO" = true ∧
      ((Logger.mk [] "INFO").Write Fmt.silent ⟨2024, 1, 2, 3, 4, 5⟩ "INFO" "a\nb" []).out
        = ["[LOG-INFO][2024/01/02-03:04:05] a\nb\n"] ∧
      ¬ oneTerminatedLine "[LOG-INFO][2024/01/02-03:04:05] a\nb\n" := by
  decide

/-- C5, amended: for an enabled level, `Write` appends one write that ends with a newline
character, and that write contains no other newline character exactly when the formatted
message `Sprintf template args` contains none. -/
theorem Write_one_line (lib : Fmt) (l : Logger) (now : Time) (level : Loglevel)
    (template : String) (args : List Any) (h : l.ShouldBeLogged level = true) :
    ∃ w, (l.Write lib now level template args).out = l.out ++ [w]
      ∧ w.data.getLast? = some '\n'
      ∧ (oneTerminatedLine w ↔ '\n' ∉ (Sprintf lib template args).data) := by
  have hw : ("[LOG-" ++ level ++ "][" ++ LoggerTimeStamp now ++ "] "
      ++ Sprintf lib template args ++ "\n").data
      = ("[LOG-" ++ level ++ "][" ++ LoggerTimeStamp now ++ "] "
        ++ Sprintf lib template args).data ++ ['\n'] := by
    rw [String.data_append]
  have hL := isSeverity_no_newline level ((shouldBeLogged_iff l level).mp h).1
  have ht := LoggerTimeStamp_ne_newline now
  refine ⟨_, by rw [Write_enabled lib l now level template args h], ?_, ?_⟩
  · rw [hw, List.getLast?_concat]
  · rw [oneTerminatedLine, hw, List.getLast?_concat, List.dropLast_concat]
    simp [String.data_append, hL, ht]

theorem Write_one_line_witness :
    (Logger.mk [] "ERROR").ShouldBeLogged "WARN" = true ∧
      ∃ w, ((Logger.mk [] "ERROR").Write Fmt.silent ⟨2024, 1, 2, 3, 4, 5⟩ "WARN"
          "disk %v" [.str "full"]).out = (Logger.mk [] "ERROR").out ++ [w]
        ∧ w.data.getLast? = some '\n'
        ∧ (oneTerminatedLine w
            ↔ '\n' ∉ (Sprintf Fmt.silent "disk %v" [.str "full"]).data) :=
  ⟨by decide, Write_one_line Fmt.silent (Logger.mk [] "ERROR") ⟨2024, 1, 2, 3, 4, 5⟩
    "WARN" "disk %v" [.str "full"] (by decide)⟩

/-- C6: for a level string `X` that is not one of the four severities, `GetLogLevel` after
`SetLogLevel X` returns the threshold the logger had before the call. -/
theorem SetLogLevel_invalid_get (lib : Fmt) (l : Logger) (now : Time) (X : Loglevel)
    (hX : ¬ isSeverity X) : (l.SetLogLevel lib now X).GetLogLevel = l.GetLogLevel := by
  simp [GetLogLevel, SetLogLevel_loglevel, hX]

theorem SetLogLevel_invalid_get_witness :
    ¬ isSeverity "TRACE" ∧
      ((Logger.mk [] "WARN").SetLogLevel Fmt.silent ⟨2024, 1, 2, 3, 4, 5⟩ "TRACE").GetLogLevel
        = (Logger.mk [] "WARN").GetLogLevel :=
  ⟨by decide, SetLogLevel_invalid_get Fmt.silent (Logger.mk [] "WARN") ⟨2024, 1, 2, 3, 4, 5⟩
    "TRACE" (by decide)⟩

/-- C7: for a level `V` among INFO, WARN, ERROR, DEBUG, `GetLogLevel` right after
`SetLogLevel V` returns `V`, whatever the previous threshold was. -/
theorem SetLogLevel_valid_get (lib : Fmt) (l : Logger) (now : Time) (V : Loglevel)
    (hV : isSeverity V) : (l.SetLogLevel lib now V).GetLogLevel = V := by
  simp [GetLogLevel, SetLogLevel_loglevel, hV]

theorem SetLogLevel_valid_get_witness :
    isSeverity "ERROR" ∧
      ((Logger.mk [] "INFO").SetLogLevel Fmt.silent ⟨2024, 1, 2, 3, 4, 5⟩ "ERROR").GetLogLevel
        = "ERROR" :=
  ⟨by decide, SetLogLevel_valid_get Fmt.silent (Logger.mk [] "INFO") ⟨2024, 1, 2, 3, 4, 5⟩
    "ERROR" (by decide)⟩

/-- C8: after any finite sequence of `SetLogLevel` calls with arbitrary level strings,
`GetLogLevel` returns the last element of the sequence that is one of the four severities,
and the initial threshold when the sequence has no such element. -/
theorem setAll_get (lib : Fmt) (l : Logger) (calls : List (Time × Loglevel)) :
    (setAll lib l calls).GetLogLevel
      = (((calls.map Prod.snd).filter (fun L => decide (isSeverity L))).getLast?).getD
          l.GetLogLevel := by
  induction calls using List.reverseRecOn with
  | nil => rfl
  | append_singleton cs c ih =>
    simp only [GetLogLevel] at ih ⊢
    simp only [setAll, List.foldl_append, List.foldl_cons, List.foldl_nil, List.map_append,
      List.map_cons, List.map_nil, List.filter_append, SetLogLevel_loglevel]
    by_cases hc : isSeverity c.2
    · simp [hc, List.filter_cons]
    · simpa [hc, List.filter_cons, setAll] using ih

/-- C9: in every logger state reached from `NewLogger` by a finite sequence of the public
operations, the threshold is one of INFO, WARN, ERROR, DEBUG. -/
theorem reachable_loglevel_valid (lib : Fmt) (stdout : List String) (t1 t2 : Time)
    (ops : List Op) : isSeverity (run lib (NewLogger lib stdout t1 t2) ops).loglevel := by
  apply run_loglevel_valid
  rw [NewLogger_eq]
  exact Or.inl rfl

/-- C10: `NewLogger` returns a logger whose threshold is INFO and writes exactly one line
while constructing it, the INFO line with body "Logger initialized with log level INFO";
the DEBUG announcement, made at threshold INFO, writes nothing. -/
theorem NewLogger_result (lib : Fmt) (stdout : List String) (t1 t2 : Time) :
    (NewLogger lib stdout t1 t2).GetLogLevel = INFO
      ∧ (NewLogger lib stdout t1 t2).out = stdout ++
        ["[LOG-INFO][" ++ LoggerTimeStamp t1 ++ "] Logger initialized with log level INFO\n"]
      ∧ ∀ o : List String,
          ((Logger.mk o INFO).Debug lib t2 "!!! Debug log level enabled !!!" []).out = o := by
  refine ⟨by rw [NewLogger_eq]; rfl, by rw [NewLogger_eq], ?_⟩
  intro o
  rw [Debug, Write_disabled lib (Logger.mk o INFO) t2 DEBUG _ [] rfl]

end Logger

namespace Logger

/-! ## Announcements of `SetLogLevel` -/

theorem doPrintf_pre (lib : Fmt) (a : List Any) (pre : List Char) (h : '%' ∉ pre) :
    ∀ (rest : List Char) (n : Nat),
      doPrintf lib a (pre ++ rest) n = pre ++ doPrintf lib a rest n := by
  induction pre with
  | nil => intros; rfl
  | cons c cs ih =>
    intro rest n
    have hc : c ≠ '%' := fun e => h (by simp [e])
    have hcs : '%' ∉ cs := fun e => h (by simp [e])
    simp [doPrintf_lit _ _ _ _ _ hc, ih hcs]

theorem Sprintf_set (lib : Fmt) (L : String) :
    Sprintf lib "Log level set to %s" [.level L] = "Log level set to " ++ L := by
  apply String.ext
  have hf : ("Log level set to %s" : String).data = "Log level set to ".data ++ ['%', 's'] := by
    decide
  rw [Sprintf, hf, doPrintf_pre lib _ _ (by decide)]
  simp [doPrintf_text, doPrintf_nil, finish, Any.text]

theorem Sprintf_invalid (lib : Fmt) (X T : String) :
    Sprintf lib "Invalid log level %s! Loglevel still is set to %s" [.level X, .level T]
      = "Invalid log level " ++ X ++ "! Loglevel still is set to " ++ T := by
  apply String.ext
  have hf : ("Invalid log level %s! Loglevel still is set to %s" : String).data
      = "Invalid log level ".data ++ ('%' :: 's' :: ("! Loglevel still is set to ".data
          ++ ['%', 's'])) := by
    decide
  rw [Sprintf, hf, doPrintf_pre lib _ _ (by decide),
    doPrintf_text lib _ (.level X) 's' _ 0 (Or.inl rfl) rfl,
    doPrintf_pre lib _ _ (by decide)]
  simp [doPrintf_text, doPrintf_nil, finish, Any.text, String.data_append]

theorem isSeverity_no_percent (L : Loglevel) (h : isSeverity L) : '%' ∉ L.data := by
  rcases h with rfl | rfl | rfl | rfl <;> decide

theorem rank_nonneg (L : Loglevel) : 0 ≤ rank L := by
  unfold rank; split_ifs <;> decide

theorem rank_ge_two_iff (T : Loglevel) (hT : isSeverity T) :
    rank T ≥ 2 ↔ (T = "ERROR" ∨ T = "DEBUG") := by
  rcases hT with rfl | rfl | rfl | rfl <;> decide

theorem SetLogLevel_valid_eq (lib : Fmt) (l : Logger) (now : Time) (V : Loglevel)
    (hV : isSeverity V) :
    l.SetLogLevel lib now V = Logger.mk (l.out ++
      ["[LOG-INFO][" ++ LoggerTimeStamp now ++ "] " ++ ("Log level set to " ++ V) ++ "\n"]) V := by
  have hv := (validate_iff l V).mpr hV
  have he : ShouldBeLogged (Logger.mk l.out V) INFO = true :=
    (shouldBeLogged_iff _ _).mpr ⟨Or.inl rfl, rank_nonneg V⟩
  have hp : Sprintf lib ("Log level set to " ++ V) [] = "Log level set to " ++ V := by
    apply Sprintf_plain
    have := isSeverity_no_percent V hV
    simp only [String.data_append, List.mem_append, not_or]
    exact ⟨by decide, this⟩
  simp only [SetLogLevel, hv, if_true, Info, Sprintf_set]
  rw [Write_enabled lib _ now INFO _ [] he, hp]
  rfl

theorem SetLogLevel_invalid_eq (lib : Fmt) (l : Logger) (now : Time) (X : Loglevel)
    (hX : ¬ isSeverity X) :
    l.SetLogLevel lib now X = l.Write lib now ERROR
      ("Invalid log level " ++ X ++ "! Loglevel still is set to " ++ l.loglevel) [] := by
  have hv := (validate_false_iff l X).mpr hX
  simp [SetLogLevel, hv, Error, Sprintf_invalid]

theorem shouldBeLogged_error_iff (l : Logger) :
    l.ShouldBeLogged ERROR = true ↔ rank l.loglevel ≥ 2 := by
  rw [shouldBeLogged_iff]
  constructor
  · exact fun h => h.2
  · exact fun h => ⟨Or.inr (Or.inr (Or.inl rfl)), h⟩

theorem shouldBeLogged_debug_iff (l : Logger) (hT : isSeverity l.loglevel) :
    l.ShouldBeLogged DEBUG = true ↔ l.loglevel = "DEBUG" := by
  rw [shouldBeLogged_iff]
  rcases hT with h | h | h | h <;> rw [h] <;> decide

theorem shouldBeLogged_of_debug (l : Logger) (h : l.loglevel = DEBUG) (L : Loglevel)
    (hL : isSeverity L) : l.ShouldBeLogged L = true := by
  rw [shouldBeLogged_iff, h]
  refine ⟨hL, ?_⟩
  rcases hL with rfl | rfl | rfl | rfl <;> decide

theorem Write_out_cases (lib : Fmt) (l : Logger) (now : Time) (L : Loglevel) (msg : String)
    (v : List Any) :
    (∃ w, (l.Write lib now L msg v).out = l.out ++ [w]) ↔ l.ShouldBeLogged L = true := by
  constructor
  · intro ⟨w, hw⟩
    by_contra hne
    rw [Bool.not_eq_true] at hne
    rw [Write_disabled lib l now L msg v hne] at hw
    have := congrArg List.length hw
    simp at this
  · intro h
    exact ⟨_, by rw [Write_enabled lib l now L msg v h]⟩

end Logger

namespace Logger

/-! ## Claims on announcements and filtering -/

/-- C11: for a level string `X` that is not one of the four severities and a valid
threshold `T`, `SetLogLevel X` writes an ERROR-tagged diagnostic line exactly when the rank
of `T` is at least 2, that is when `T` is ERROR or DEBUG; when `T` is INFO or WARN (as for
`SetLogLevel "TRACE"` at threshold WARN) the call writes nothing. -/
theorem SetLogLevel_invalid_out (lib : Fmt) (l : Logger) (now : Time) (X : Loglevel)
    (hX : ¬ isSeverity X) (hT : isSeverity l.loglevel) :
    ((∃ body, (l.SetLogLevel lib now X).out
          = l.out ++ ["[LOG-ERROR][" ++ LoggerTimeStamp now ++ "] " ++ body ++ "\n"])
        ↔ rank l.loglevel ≥ 2)
      ∧ (rank l.loglevel ≥ 2 ↔ (l.loglevel = "ERROR" ∨ l.loglevel = "DEBUG"))
      ∧ ((l.loglevel = "INFO" ∨ l.loglevel = "WARN") → (l.SetLogLevel lib now X).out = l.out)
      ∧ ((Logger.mk l.out "WARN").SetLogLevel lib now "TRACE").out = l.out := by
  have hcase : (l.loglevel = "INFO" ∨ l.loglevel = "WARN") →
      (l.SetLogLevel lib now X).out = l.out := by
    intro h
    have hd : l.ShouldBeLogged ERROR = false := by
      rw [← Bool.not_eq_true, shouldBeLogged_error_iff]
      rcases h with h | h <;> rw [h] <;> decide
    rw [SetLogLevel_invalid_eq lib l now X hX, Write_disabled lib l now ERROR _ [] hd]
  refine ⟨?_, rank_ge_two_iff _ hT, hcase, ?_⟩
  · constructor
    · intro ⟨body, hb⟩
      by_contra hr
      have hlow : l.loglevel = "INFO" ∨ l.loglevel = "WARN" := by
        rcases hT with h | h | h | h
        · exact Or.inl h
        · exact Or.inr h
        · exact absurd (by rw [h]; decide) hr
        · exact absurd (by rw [h]; decide) hr
      rw [hcase hlow] at hb
      have := congrArg List.length hb
      simp at this
    · intro hr
      have he := (shouldBeLogged_error_iff l).mpr hr
      exact ⟨_, by rw [SetLogLevel_invalid_eq lib l now X hX,
        Write_enabled lib l now ERROR _ [] he]; rfl⟩
  · rw [SetLogLevel_invalid_eq lib _ now "TRACE" (by decide),
      Write_disabled lib (Logger.mk l.out "WARN") now ERROR _ [] rfl]

theorem SetLogLevel_invalid_out_witness :
    ¬ isSeverity "verbose" ∧ isSeverity (Logger.mk ["x\n"] "DEBUG").loglevel ∧
    (((∃ body, ((Logger.mk ["x\n"] "DEBUG").SetLogLevel Fmt.silent ⟨2024, 1, 2, 3, 4, 5⟩
            "verbose").out = (Logger.mk ["x\n"] "DEBUG").out
              ++ ["[LOG-ERROR][" ++ LoggerTimeStamp ⟨2024, 1, 2, 3, 4, 5⟩ ++ "] " ++ body
                ++ "\n"])
        ↔ rank (Logger.mk ["x\n"] "DEBUG").loglevel ≥ 2)
      ∧ (rank (Logger.mk ["x\n"] "DEBUG").loglevel ≥ 2
          ↔ ((Logger.mk ["x\n"] "DEBUG").loglevel = "ERROR"
            ∨ (Logger.mk ["x\n"] "DEBUG").loglevel = "DEBUG"))
      ∧ (((Logger.mk ["x\n"] "DEBUG").loglevel = "INFO"
            ∨ (Logger.mk ["x\n"] "DEBUG").loglevel = "WARN") →
          ((Logger.mk ["x\n"] "DEBUG").SetLogLevel Fmt.silent ⟨2024, 1, 2, 3, 4, 5⟩
            "verbose").out = (Logger.mk ["x\n"] "DEBUG").out)
      ∧ ((Logger.mk (Logger.mk ["x\n"] "DEBUG").out "WARN").SetLogLevel Fmt.silent
          ⟨2024, 1, 2, 3, 4, 5⟩ "TRACE").out = (Logger.mk ["x\n"] "DEBUG").out) :=
  ⟨by decide, by decide, SetLogLevel_invalid_out Fmt.silent (Logger.mk ["x\n"] "DEBUG")
    ⟨2024, 1, 2, 3, 4, 5⟩ "verbose" (by decide) (by decide)⟩

/-- C12: for every previous threshold and every valid level `V`, `SetLogLevel V` writes
exactly one line, tagged INFO, with body `"Log level set to " ++ V`; it is printed for every
valid `V`, as for `SetLogLevel "ERROR"` at threshold INFO. -/
theorem SetLogLevel_valid_out (lib : Fmt) (l : Logger) (now : Time) (V : Loglevel)
    (hV : isSeverity V) :
    (l.SetLogLevel lib now V).out = l.out ++
        ["[LOG-INFO][" ++ LoggerTimeStamp now ++ "] " ++ ("Log level set to " ++ V) ++ "\n"]
      ∧ ((Logger.mk l.out "INFO").SetLogLevel lib now "ERROR").out = l.out ++
        ["[LOG-INFO][" ++ LoggerTimeStamp now ++ "] " ++ "Log level set to ERROR" ++ "\n"] := by
  constructor
  · rw [SetLogLevel_valid_eq lib l now V hV]
  · rw [SetLogLevel_valid_eq lib _ now "ERROR" (by decide)]
    rfl

theorem SetLogLevel_valid_out_witness :
    isSeverity "DEBUG" ∧
    (((Logger.mk [] "WARN").SetLogLevel Fmt.silent ⟨2024, 1, 2, 3, 4, 5⟩ "DEBUG").out
        = (Logger.mk [] "WARN").out ++
          ["[LOG-INFO][" ++ LoggerTimeStamp ⟨2024, 1, 2, 3, 4, 5⟩ ++ "] "
            ++ ("Log level set to " ++ "DEBUG") ++ "\n"]
      ∧ ((Logger.mk (Logger.mk [] "WARN").out "INFO").SetLogLevel Fmt.silent
          ⟨2024, 1, 2, 3, 4, 5⟩ "ERROR").out = (Logger.mk [] "WARN").out ++
          ["[LOG-INFO][" ++ LoggerTimeStamp ⟨2024, 1, 2, 3, 4, 5⟩ ++ "] "
            ++ "Log level set to ERROR" ++ "\n"]) :=
  ⟨by decide, SetLogLevel_valid_out Fmt.silent (Logger.mk [] "WARN") ⟨2024, 1, 2, 3, 4, 5⟩
    "DEBUG" (by decide)⟩

/-- C13: for a level string `L` that is not one of the four severities and any logger
state, whatever its threshold, `ShouldBeLogged L` is false and `Write L template args`
leaves the sink as it was: no message and no diagnostic is written. -/
theorem Write_invalid_level (lib : Fmt) (l : Logger) (now : Time) (L : Loglevel)
    (template : String) (args : List Any) (hL : ¬ isSeverity L) :
    l.ShouldBeLogged L = false ∧ (l.Write lib now L template args).out = l.out := by
  have h : l.ShouldBeLogged L = false := by
    rw [← Bool.not_eq_true, shouldBeLogged_iff]
    exact fun hh => hL hh.1
  exact ⟨h, by rw [Write_disabled lib l now L template args h]⟩

theorem Write_invalid_level_witness :
    ¬ isSeverity "TRACE" ∧
    ((Logger.mk [] "DEBUG").ShouldBeLogged "TRACE" = false
      ∧ ((Logger.mk [] "DEBUG").Write Fmt.silent ⟨2024, 1, 2, 3, 4, 5⟩ "TRACE" "x %s"
          [.str "y"]).out = (Logger.mk [] "DEBUG").out) :=
  ⟨by decide, Write_invalid_level Fmt.silent (Logger.mk [] "DEBUG") ⟨2024, 1, 2, 3, 4, 5⟩
    "TRACE" "x %s" [.str "y"] (by decide)⟩

end Logger

namespace Logger

/-! ## Claims on the convenience operations and the threshold -/

/-- C14: for a valid threshold `T`, `Debug template args` writes to the sink exactly when
`T` is DEBUG; in particular `Debug "x"` on a logger at the default threshold INFO produces
no output. -/
theorem Debug_writes_iff (lib : Fmt) (l : Logger) (now : Time) (template : String)
    (args : List Any) (hT : isSeverity l.loglevel) :
    ((∃ w, (l.Debug lib now template args).out = l.out ++ [w]) ↔ l.loglevel = "DEBUG")
      ∧ (l.loglevel ≠ "DEBUG" → (l.Debug lib now template args).out = l.out)
      ∧ ((Logger.mk l.out INFO).Debug lib now "x" []).out = l.out := by
  refine ⟨?_, ?_, ?_⟩
  · rw [Debug, Write_out_cases, shouldBeLogged_debug_iff l hT]
  · intro hne
    have hd : l.ShouldBeLogged DEBUG = false := by
      rw [← Bool.not_eq_true, shouldBeLogged_debug_iff l hT]
      exact hne
    rw [Debug, Write_disabled lib l now DEBUG template args hd]
  · rw [Debug, Write_disabled lib (Logger.mk l.out INFO) now DEBUG _ [] rfl]

theorem Debug_writes_iff_witness :
    isSeverity (Logger.mk [] "DEBUG").loglevel ∧
    (((∃ w, ((Logger.mk [] "DEBUG").Debug Fmt.silent ⟨2024, 1, 2, 3, 4, 5⟩ "n=%v"
          [.str "7"]).out = (Logger.mk [] "DEBUG").out ++ [w])
        ↔ (Logger.mk [] "DEBUG").loglevel = "DEBUG")
      ∧ ((Logger.mk [] "DEBUG").loglevel ≠ "DEBUG" →
          ((Logger.mk [] "DEBUG").Debug Fmt.silent ⟨2024, 1, 2, 3, 4, 5⟩ "n=%v"
            [.str "7"]).out = (Logger.mk [] "DEBUG").out)
      ∧ ((Logger.mk (Logger.mk [] "DEBUG").out INFO).Debug Fmt.silent ⟨2024, 1, 2, 3, 4, 5⟩
          "x" []).out = (Logger.mk [] "DEBUG").out) :=
  ⟨by decide, Debug_writes_iff Fmt.silent (Logger.mk [] "DEBUG") ⟨2024, 1, 2, 3, 4, 5⟩
    "n=%v" [.str "7"] (by decide)⟩

/-- C15: when the threshold is DEBUG, each of `Info`, `Warn`, `Error` and `Debug` writes
exactly one line, made of its own tag `"[LOG-<LEVEL>]["`, the timestamp, `"] "`, the
formatted message and a newline; `Info "hello %s" "world"` writes one INFO-tagged line
ending in `"hello world"`. -/
theorem all_levels_at_debug (lib : Fmt) (l : Logger) (now : Time) (template : String)
    (args : List Any) (h : l.loglevel = DEBUG) :
    (l.Info lib now template args).out = l.out ++
        ["[LOG-INFO][" ++ LoggerTimeStamp now ++ "] " ++ Sprintf lib template args ++ "\n"]
      ∧ (l.Warn lib now template args).out = l.out ++
        ["[LOG-WARN][" ++ LoggerTimeStamp now ++ "] " ++ Sprintf lib template args ++ "\n"]
      ∧ (l.Error lib now template args).out = l.out ++
        ["[LOG-ERROR][" ++ LoggerTimeStamp now ++ "] " ++ Sprintf lib template args ++ "\n"]
      ∧ (l.Debug lib now template args).out = l.out ++
        ["[LOG-DEBUG][" ++ LoggerTimeStamp now ++ "] " ++ Sprintf lib template args ++ "\n"]
      ∧ (l.Info lib now "hello %s" [.str "world"]).out = l.out ++
        ["[LOG-INFO][" ++ LoggerTimeStamp now ++ "] " ++ "hello world" ++ "\n"] := by
  have hi := shouldBeLogged_of_debug l h INFO (by decide)
  have hw := shouldBeLogged_of_debug l h WARN (by decide)
  have he := shouldBeLogged_of_debug l h ERROR (by decide)
  have hd := shouldBeLogged_of_debug l h DEBUG (by decide)
  have hs : Sprintf lib "hello %s" [.str "world"] = "hello world" := by
    apply String.ext
    have hf : ("hello %s" : String).data = "hello ".data ++ ['%', 's'] := by decide
    rw [Sprintf, hf, doPrintf_pre lib _ _ (by decide)]
    simp [doPrintf_text, doPrintf_nil, finish, Any.text]
  refine ⟨?_, ?_, ?_, ?_, ?_⟩
  · rw [Info, Write_enabled lib l now INFO template args hi]; rfl
  · rw [Warn, Write_enabled lib l now WARN template args hw]; rfl
  · rw [Error, Write_enabled lib l now ERROR template args he]; rfl
  · rw [Debug, Write_enabled lib l now DEBUG template args hd]; rfl
  · rw [Info, Write_enabled lib l now INFO _ _ hi, hs]; rfl

theorem all_levels_at_debug_witness :
    (Logger.mk [] "DEBUG").loglevel = DEBUG ∧
    (((Logger.mk [] "DEBUG").Info Fmt.silent ⟨2024, 1, 2, 3, 4, 5⟩ "up %v" [.str "ok"]).out
        = (Logger.mk [] "DEBUG").out ++ ["[LOG-INFO][" ++ LoggerTimeStamp ⟨2024, 1, 2, 3, 4, 5⟩
          ++ "] " ++ Sprintf Fmt.silent "up %v" [.str "ok"] ++ "\n"]
      ∧ ((Logger.mk [] "DEBUG").Warn Fmt.silent ⟨2024, 1, 2, 3, 4, 5⟩ "up %v" [.str "ok"]).out
        = (Logger.mk [] "DEBUG").out ++ ["[LOG-WARN][" ++ LoggerTimeStamp ⟨2024, 1, 2, 3, 4, 5⟩
          ++ "] " ++ Sprintf Fmt.silent "up %v" [.str "ok"] ++ "\n"]
      ∧ ((Logger.mk [] "DEBUG").Error Fmt.silent ⟨2024, 1, 2, 3, 4, 5⟩ "up %v" [.str "ok"]).out
        = (Logger.mk [] "DEBUG").out ++ ["[LOG-ERROR][" ++ LoggerTimeStamp ⟨2024, 1, 2, 3, 4, 5⟩
          ++ "] " ++ Sprintf Fmt.silent "up %v" [.str "ok"] ++ "\n"]
      ∧ ((Logger.mk [] "DEBUG").Debug Fmt.silent ⟨2024, 1, 2, 3, 4, 5⟩ "up %v" [.str "ok"]).out
        = (Logger.mk [] "DEBUG").out ++ ["[LOG-DEBUG][" ++ LoggerTimeStamp ⟨2024, 1, 2, 3, 4, 5⟩
          ++ "] " ++ Sprintf Fmt.silent "up %v" [.str "ok"] ++ "\n"]
      ∧ ((Logger.mk [] "DEBUG").Info Fmt.silent ⟨2024, 1, 2, 3, 4, 5⟩ "hello %s"
          [.str "world"]).out
        = (Logger.mk [] "DEBUG").out ++ ["[LOG-INFO][" ++ LoggerTimeStamp ⟨2024, 1, 2, 3, 4, 5⟩
          ++ "] " ++ "hello world" ++ "\n"]) :=
  ⟨by decide, all_levels_at_debug Fmt.silent (Logger.mk [] "DEBUG") ⟨2024, 1, 2, 3, 4, 5⟩
    "up %v" [.str "ok"] (by decide)⟩

end Logger

namespace Logger

theorem SetLogLevel_invalid_body_plain (lib : Fmt) (l : Logger) (now : Time) (X : Loglevel)
    (hX : ¬ isSeverity X) (hp : '%' ∉ X.data) (hT : isSeverity l.loglevel)
    (hr : rank l.loglevel ≥ 2) :
    (l.SetLogLevel lib now X).out = l.out ++ ["[LOG-ERROR][" ++ LoggerTimeStamp now ++ "] "
      ++ ("Invalid log level " ++ X ++ "! Loglevel still is set to " ++ l.loglevel) ++ "\n"] := by
  have he := (shouldBeLogged_error_iff l).mpr hr
  have hplain : Sprintf lib
      ("Invalid log level " ++ X ++ "! Loglevel still is set to " ++ l.loglevel) []
      = "Invalid log level " ++ X ++ "! Loglevel still is set to " ++ l.loglevel := by
    apply Sprintf_plain
    have hl := isSeverity_no_percent l.loglevel hT
    simp only [String.data_append, List.mem_append, not_or]
    exact ⟨⟨⟨by decide, hp⟩, by decide⟩, hl⟩
  rw [SetLogLevel_invalid_eq lib l now X hX, Write_enabled lib l now ERROR _ [] he, hplain]
  rfl

/-- C16, as stated, fails: at threshold WARN a message at level INFO is written although
the rank of INFO is below the rank of WARN, and a message at level ERROR is not written
although the rank of ERROR is above the rank of WARN. -/
theorem threshold_minimum_counterexample :
    isSeverity "WARN" ∧ isSeverity "INFO" ∧ isSeverity "ERROR"
      ∧ ((Logger.mk [] "WARN").Write Fmt.silent ⟨2024, 1, 2, 3, 4, 5⟩ "INFO" "m" []).out
          = ["[LOG-INFO][2024/01/02-03:04:05] m\n"]
      ∧ ¬ (rank "INFO" ≥ rank "WARN")
      ∧ ((Logger.mk [] "WARN").Write Fmt.silent ⟨2024, 1, 2, 3, 4, 5⟩ "ERROR" "m" []).out = []
      ∧ rank "ERROR" ≥ rank "WARN" := by
  decide

/-- C16, amended: for a valid threshold `T` and a valid level `L`, a message emitted at
level `L` is written to the sink exactly when the rank of `L` is at most the rank of `T`
(the threshold is the highest-ranked severity that produces output); otherwise the sink is
left as it was. -/
theorem threshold_maximum (lib : Fmt) (l : Logger) (now : Time) (L : Loglevel)
    (template : String) (args : List Any) (hT : isSeverity l.loglevel) (hL : isSeverity L) :
    ((∃ w, (l.Write lib now L template args).out = l.out ++ [w]) ↔ rank L ≤ rank l.loglevel)
      ∧ (¬ rank L ≤ rank l.loglevel → (l.Write lib now L template args).out = l.out) := by
  have _ := hT
  constructor
  · rw [Write_out_cases, shouldBeLogged_iff]
    exact ⟨fun h => h.2, fun h => ⟨hL, h⟩⟩
  · intro hn
    have hd : l.ShouldBeLogged L = false := by
      rw [← Bool.not_eq_true, shouldBeLogged_iff]
      exact fun hh => hn hh.2
    rw [Write_disabled lib l now L template args hd]

theorem threshold_maximum_witness :
    isSeverity (Logger.mk [] "WARN").loglevel ∧ isSeverity "INFO" ∧
    (((∃ w, ((Logger.mk [] "WARN").Write Fmt.silent ⟨2024, 1, 2, 3, 4, 5⟩ "INFO" "m" []).out
          = (Logger.mk [] "WARN").out ++ [w]) ↔ rank "INFO" ≤ rank (Logger.mk [] "WARN").loglevel)
      ∧ (¬ rank "INFO" ≤ rank (Logger.mk [] "WARN").loglevel →
          ((Logger.mk [] "WARN").Write Fmt.silent ⟨2024, 1, 2, 3, 4, 5⟩ "INFO" "m" []).out
            = (Logger.mk [] "WARN").out)) :=
  ⟨by decide, by decide, threshold_maximum Fmt.silent (Logger.mk [] "WARN")
    ⟨2024, 1, 2, 3, 4, 5⟩ "INFO" "m" [] (by decide) (by decide)⟩

/-- C17: `Info`, `Warn`, `Error` and `Debug` are `Write` with the level fixed to "INFO",
"WARN", "ERROR" and "DEBUG": the resulting logger states, and so the threshold and the bytes
written to the sink, are the same. -/
theorem convenience_eq_Write (lib : Fmt) (l : Logger) (now : Time) (template : String)
    (args : List Any) :
    l.Info lib now template args = l.Write lib now "INFO" template args
      ∧ l.Warn lib now template args = l.Write lib now "WARN" template args
      ∧ l.Error lib now template args = l.Write lib now "ERROR" template args
      ∧ l.Debug lib now template args = l.Write lib now "DEBUG" template args :=
  ⟨rfl, rfl, rfl, rfl⟩

/-- C18 at the failing input: at threshold ERROR, `SetLogLevel "%d"` writes a diagnostic
whose body is "Invalid log level %!d(MISSING)! Loglevel still is set to ERROR", because the
formatted message is formatted once more by `Write`; the rejected value `%d` is not
stated. -/
theorem SetLogLevel_percent_body (lib : Fmt) (o : List String) (now : Time) :
    ((Logger.mk o "ERROR").SetLogLevel lib now "%d").out = o ++
        ["[LOG-ERROR][" ++ LoggerTimeStamp now ++ "] "
          ++ "Invalid log level %!d(MISSING)! Loglevel still is set to ERROR" ++ "\n"]
      ∧ "Invalid log level %!d(MISSING)! Loglevel still is set to ERROR"
          ≠ "Invalid log level " ++ "%d" ++ "! Loglevel still is set to " ++ "ERROR" := by
  refine ⟨?_, by decide⟩
  have hs : Sprintf lib
      ("Invalid log level " ++ "%d" ++ "! Loglevel still is set to "
        ++ (Logger.mk o "ERROR").loglevel) []
      = "Invalid log level %!d(MISSING)! Loglevel still is set to ERROR" := rfl
  rw [SetLogLevel_invalid_eq lib _ now "%d" (by decide),
    Write_enabled lib (Logger.mk o "ERROR") now ERROR _ [] rfl, hs]
  rfl

/-- C19: only `SetLogLevel` with a valid level can change the threshold: `Write`, `Info`,
`Warn`, `Error` and `Debug` leave the threshold as it was, the three queries
`GetLogLevel`, `ValidateLogLevel` and `ShouldBeLogged` leave both the threshold and the
sink as they were, and any call that changes the threshold is a `SetLogLevel` with one of
the four severities. -/
theorem threshold_frame (lib : Fmt) (l : Logger) (now : Time) (L : Loglevel)
    (template : String) (args : List Any) (op : Op) :
    (l.Write lib now L template args).loglevel = l.loglevel
      ∧ (l.Info lib now template args).loglevel = l.loglevel
      ∧ (l.Warn lib now template args).loglevel = l.loglevel
      ∧ (l.Error lib now template args).loglevel = l.loglevel
      ∧ (l.Debug lib now template args).loglevel = l.loglevel
      ∧ step lib l .getLogLevel = l
      ∧ step lib l (.validateLogLevel L) = l
      ∧ step lib l (.shouldBeLogged L) = l
      ∧ ((step lib l op).loglevel = l.loglevel
          ∨ ∃ t V, op = .setLogLevel t V ∧ isSeverity V) := by
  refine ⟨Write_loglevel .., Write_loglevel .., Write_loglevel .., Write_loglevel ..,
    Write_loglevel .., rfl, rfl, rfl, ?_⟩
  cases op with
  | setLogLevel t V =>
    by_cases hV : isSeverity V
    · exact Or.inr ⟨t, V, rfl, hV⟩
    · left; simp [step, SetLogLevel_loglevel, hV]
  | write t L msg v => left; exact Write_loglevel ..
  | info t msg v => left; exact Write_loglevel ..
  | warn t msg v => left; exact Write_loglevel ..
  | error t msg v => left; exact Write_loglevel ..
  | debug t msg v => left; exact Write_loglevel ..
  | shouldBeLogged L => left; rfl
  | validateLogLevel L => left; rfl
  | getLogLevel => left; rfl

/-- C20: filtering is monotone in the rank of the threshold: for valid thresholds with
rank `T1` at most rank `T2`, a level enabled at `T1` is enabled at `T2`; and at a valid
threshold `T` exactly `rank T + 1` of the four severities are enabled, only INFO at INFO
and all four at DEBUG. -/
theorem enabled_monotone (l1 l2 : Logger) (L : Loglevel) (h1 : isSeverity l1.loglevel)
    (h2 : isSeverity l2.loglevel) (hr : rank l1.loglevel ≤ rank l2.loglevel) :
    (l1.ShouldBeLogged L = true → l2.ShouldBeLogged L = true)
      ∧ ((([INFO, WARN, ERROR, DEBUG].filter l1.ShouldBeLogged).length : Int)
          = rank l1.loglevel + 1)
      ∧ [INFO, WARN, ERROR, DEBUG].filter (Logger.mk l1.out INFO).ShouldBeLogged = [INFO]
      ∧ [INFO, WARN, ERROR, DEBUG].filter (Logger.mk l1.out DEBUG).ShouldBeLogged
          = [INFO, WARN, ERROR, DEBUG] := by
  have _ := h2
  refine ⟨?_, ?_, rfl, rfl⟩
  · rw [shouldBeLogged_iff, shouldBeLogged_iff]
    exact fun h => ⟨h.1, le_trans h.2 hr⟩
  · obtain ⟨o, T⟩ := l1
    simp only at h1
    rcases h1 with rfl | rfl | rfl | rfl <;> rfl

theorem enabled_monotone_witness :
    isSeverity (Logger.mk [] "WARN").loglevel ∧ isSeverity (Logger.mk ["a\n"] "ERROR").loglevel
    ∧ rank (Logger.mk [] "WARN").loglevel ≤ rank (Logger.mk ["a\n"] "ERROR").loglevel
    ∧ (((Logger.mk [] "WARN").ShouldBeLogged "INFO" = true →
          (Logger.mk ["a\n"] "ERROR").ShouldBeLogged "INFO" = true)
      ∧ ((([INFO, WARN, ERROR, DEBUG].filter (Logger.mk [] "WARN").ShouldBeLogged).length : Int)
          = rank (Logger.mk [] "WARN").loglevel + 1)
      ∧ [INFO, WARN, ERROR, DEBUG].filter
          (Logger.mk (Logger.mk [] "WARN").out INFO).ShouldBeLogged = [INFO]
      ∧ [INFO, WARN, ERROR, DEBUG].filter
          (Logger.mk (Logger.mk [] "WARN").out DEBUG).ShouldBeLogged
          = [INFO, WARN, ERROR, DEBUG]) :=
  ⟨by decide, by decide, by decide, enabled_monotone (Logger.mk [] "WARN")
    (Logger.mk ["a\n"] "ERROR") "INFO" (by decide) (by decide) (by decide)⟩

end Logger
